import Mathlib

/-!
Shallow embedding of the NetGateTunnel server: the TunnelManager module
(server/modules/tunnel-manager.js), the control-server module and the
configuration loader. JS Maps become association lists over Nat keys, socket
side effects become an explicit chronological action log, and the asynchronous
callbacks that the source registers on sockets become explicit step functions,
applied in the order Node.js would run the handlers.
-/

namespace NetGate

/-- Association-list lookup over Nat keys, modelling JS Map.get. -/
def mlookup {α : Type} (k : Nat) : List (Nat × α) → Option α
  | [] => none
  | (k', v) :: rest => if k' = k then some v else mlookup k rest

/-- Modelling JS Map.delete: drop the entry with the given key. -/
def merase {α : Type} (k : Nat) (l : List (Nat × α)) : List (Nat × α) :=
  l.filter (fun e => e.1 != k)

/-- Modelling JS Map.set: replace in place when the key is present, append
otherwise (JS Map preserves insertion order). -/
def mset {α : Type} (k : Nat) (v : α) (l : List (Nat × α)) : List (Nat × α) :=
  if (mlookup k l).isSome then
    l.map (fun e => if e.1 = k then (k, v) else e)
  else
    l ++ [(k, v)]

/-- Keys of an association list, in table order. -/
def mkeys {α : Type} (l : List (Nat × α)) : List Nat :=
  l.map Prod.fst

/-- Modelling JS Set.add for a set of socket identifiers. -/
def saddNat (x : Nat) (l : List Nat) : List Nat :=
  if x ∈ l then l else l ++ [x]

/-- Modelling JS Set.delete for a set of socket identifiers. -/
def sdelNat (x : Nat) (l : List Nat) : List Nat :=
  l.filter (fun y => y != x)

/-- Per-tunnel counters, the stats record built in registerTunnel
(tunnel-manager.js 122-127). activeConnections is an Int: nothing in the
source clamps the decrements at zero. -/
structure Stats where
  totalConnections : Nat
  activeConnections : Int
  bytesIn : Nat
  bytesOut : Nat
deriving DecidableEq

/-- One spliced pair stored in the connections map of a tunnel
(tunnel-manager.js 247-251); sockets are identifiers. -/
structure ConnPair where
  clientSocket : Nat
  dataSocket : Nat
deriving DecidableEq

/-- One Tunnel record as stored in this.tunnels (tunnel-manager.js 114-128).
The listener object is identified by the remote port in the action log. -/
structure Tunnel where
  clientId : Nat
  localPort : Nat
  name : String
  connections : List (Nat × ConnPair)
  incomingSockets : List Nat
  stats : Stats
deriving DecidableEq

/-- One this.pendingConnections entry (tunnel-manager.js 188-192). The
presence of the entry models the armed setTimeout timer: every code path that
deletes an entry also clears its timer. -/
structure PendingConn where
  socket : Nat
  remotePort : Nat
deriving DecidableEq

/-- Observable side effects of the TunnelManager, recorded chronologically. -/
inductive Act
  | sockEnd (sock : Nat)
  | sockDestroy (sock : Nat)
  | sendNewConnection (clientId connId : Nat)
  | dial (port : Nat)
  | clearTimer (connId : Nat)
  | tryBind (port : Nat)
  | listenerClose (port : Nat)
  | registryDelete (port : Nat)
  | sleep (ms : Nat)
deriving DecidableEq

/-- One allow-list rule as produced by parseAllowedPorts in server/config.js:
a single port or an inclusive min-max range. -/
inductive PortRule
  | single (port : Nat)
  | range (lo hi : Nat)
deriving DecidableEq

/-- Modelled from the spec: isPortAllowed lives in common/utils.js, which is
absent from the provided sources. Spec 4.3: reject if remotePort is outside
the configured allowlist; the allowlist is a list of singletons and min-max
ranges; an empty list means all ports are allowed. -/
def isPortAllowed (port : Nat) (rules : List PortRule) : Bool :=
  rules.isEmpty ||
    rules.any (fun r =>
      match r with
      | .single p => port == p
      | .range lo hi => decide (lo ≤ port) && decide (port ≤ hi))

/-- State of one TunnelManager instance: the tunnel registry, the
pending-connection table, the relevant configuration, and the action log. -/
structure TM where
  allowedPorts : List PortRule
  tunnels : List (Nat × Tunnel)
  pendingConnections : List (Nat × PendingConn)
  actions : List Act
deriving DecidableEq

/-- Append side effects to the chronological log. -/
def TM.log (s : TM) (a : List Act) : TM :=
  {s with actions := s.actions ++ a}

/-- Pointwise update of one registry entry, keeping its key. -/
def setAt (port : Nat) (f : Tunnel → Tunnel) (e : Nat × Tunnel) : Nat × Tunnel :=
  if e.1 = port then (e.1, f e.2) else e

/-- Mutate the tunnel stored at the given port in place, as JS does through
the shared object reference. -/
def updateTunnel (port : Nat) (f : Tunnel → Tunnel) (s : TM) : TM :=
  {s with tunnels := s.tunnels.map (setAt port f)}

/-- Decrement of tunnel.stats.activeConnections. -/
def decActive (t : Tunnel) : Tunnel :=
  {t with stats := {t.stats with activeConnections := t.stats.activeConnections - 1}}

/-- A client-requested tunnel spec, the config argument of registerTunnel. -/
structure TunnelSpec where
  remotePort : Nat
  localPort : Nat
  name : String
deriving DecidableEq

/-- Outcome of one server.listen bind attempt, an environment input. -/
inductive BindOutcome
  | ok
  | addrInUse
  | otherErr (code : String)
deriving DecidableEq

/-- The Error values thrown by registerTunnel. Only errors coming out of the
listen call carry a code property; the two Error objects constructed in
registerTunnel itself (74-81) have none. -/
inductive RegError
  | portInUse (port : Nat)
  | portNotAllowed (port : Nat)
  | bindError (code : String)
deriving DecidableEq

/-- The code property read by registerTunnelWithRetry (55). -/
def RegError.code : RegError → Option String
  | .bindError c => some c
  | _ => none

/-- The message property of a thrown registration error (75, 80); for listen
errors the model uses the code string as the message. -/
def RegError.message : RegError → String
  | .portInUse p => s!"Port {p} already in use"
  | .portNotAllowed p => s!"Port {p} not allowed"
  | .bindError c => c

/-- The success value returned by registerTunnel (130-135). -/
structure RegOk where
  remotePort : Nat
  localPort : Nat
  name : String
deriving DecidableEq

/-- The fresh Tunnel record stored by registerTunnel (114-128). -/
def newTunnel (clientId : Nat) (spec : TunnelSpec) : Tunnel :=
  { clientId := clientId, localPort := spec.localPort, name := spec.name,
    connections := [], incomingSockets := [],
    stats := { totalConnections := 0, activeConnections := 0, bytesIn := 0, bytesOut := 0 } }

/-- Embedding of registerTunnel (tunnel-manager.js 70-136): reject when the
port is owned or not allowed, then bind; on bind success store the Tunnel. -/
def registerTunnel (clientId : Nat) (spec : TunnelSpec) (bind : BindOutcome) (s : TM) :
    TM × Except RegError RegOk :=
  if (mlookup spec.remotePort s.tunnels).isSome then
    (s, .error (.portInUse spec.remotePort))
  else if !(isPortAllowed spec.remotePort s.allowedPorts) then
    (s, .error (.portNotAllowed spec.remotePort))
  else
    let s' := s.log [.tryBind spec.remotePort]
    match bind with
    | .addrInUse => (s', .error (.bindError "EADDRINUSE"))
    | .otherErr c => (s', .error (.bindError c))
    | .ok =>
      ({s' with tunnels := mset spec.remotePort (newTunnel clientId spec) s'.tunnels},
       .ok { remotePort := spec.remotePort, localPort := spec.localPort, name := spec.name })

/-- Embedding of registerTunnelWithRetry (47-65): retry while the thrown error
has code EADDRINUSE and attempt < maxRetries (= 3), sleeping 500 ms between
attempts. binds n is the bind outcome of the attempt numbered n. -/
def registerTunnelWithRetry (clientId : Nat) (spec : TunnelSpec)
    (binds : Nat → BindOutcome) (attempt : Nat) (s : TM) :
    TM × Except RegError RegOk :=
  match registerTunnel clientId spec (binds attempt) s with
  | (s', .ok r) => (s', .ok r)
  | (s', .error e) =>
    if h : e.code = some "EADDRINUSE" ∧ attempt < 3 then
      registerTunnelWithRetry clientId spec binds (attempt + 1) (s'.log [.sleep 500])
    else
      (s', .error e)
termination_by 3 - attempt
decreasing_by omega

/-- Result entries built by registerTunnels (30-37): the success shape
{success, remotePort, localPort, name} or the failure shape
{success, remotePort, error}. -/
structure RegResult where
  success : Bool
  remotePort : Nat
  localPort : Option Nat
  name : Option String
  error : Option String
deriving DecidableEq

/-- Loop body of registerTunnels (24-42), with the index of the current spec
threading the per-spec bind environment: binds i n is the bind outcome of
attempt n for spec number i. A thrown error is caught and recorded, and the
remaining specs are still processed. -/
def registerTunnelsGo (clientId : Nat) (binds : Nat → Nat → BindOutcome) (i : Nat)
    (specs : List TunnelSpec) (s : TM) : TM × List RegResult :=
  match specs with
  | [] => (s, [])
  | spec :: rest =>
    let step := registerTunnelWithRetry clientId spec (binds i) 0 s
    let res : RegResult :=
      match step.2 with
      | .ok o =>
        { success := true, remotePort := o.remotePort, localPort := some o.localPort,
          name := some o.name, error := none }
      | .error e =>
        { success := false, remotePort := spec.remotePort, localPort := none,
          name := none, error := some e.message }
    let rest' := registerTunnelsGo clientId binds (i + 1) rest step.1
    (rest'.1, res :: rest'.2)

/-- Embedding of registerTunnels (24-42). -/
def registerTunnels (clientId : Nat) (specs : List TunnelSpec)
    (binds : Nat → Nat → BindOutcome) (s : TM) : TM × List RegResult :=
  registerTunnelsGo clientId binds 0 specs s

/-- Embedding of handleIncomingConnection (141-202). connId models the fresh
generateConnectionId() value, sockId the accepted external socket, and sent
the Boolean returned by controlServer.sendToClient. On success the pending
entry is stored with its timeout armed; the close/error callbacks registered
here are the separate steps incomingSocketForget and cleanupConnection. -/
def handleIncomingConnection (clientId remotePort sockId connId : Nat) (sent : Bool)
    (s : TM) : TM :=
  match mlookup remotePort s.tunnels with
  | none => s.log [.sockEnd sockId]
  | some _ =>
    let s1 := updateTunnel remotePort (fun t =>
      { t with incomingSockets := saddNat sockId t.incomingSockets,
               stats := { t.stats with
                 totalConnections := t.stats.totalConnections + 1,
                 activeConnections := t.stats.activeConnections + 1 } }) s
    let s2 := s1.log [.sendNewConnection clientId connId]
    if !sent then
      updateTunnel remotePort decActive (s2.log [.sockEnd sockId])
    else
      {s2 with pendingConnections :=
        (mset connId (PendingConn.mk sockId remotePort) s2.pendingConnections)}

/-- Body of the setTimeout callback armed at 181-186. It can only run while
the pending entry is still present, since every deletion of the entry clears
the timer; while the timer is armed the captured tunnel object is exactly the
registry entry at the remote port recorded in the pending entry. -/
def fireConnectionTimeout (connId : Nat) (s : TM) : TM :=
  match mlookup connId s.pendingConnections with
  | none => s
  | some p =>
    let s1 := s.log [.sockEnd p.socket]
    let s2 := {s1 with pendingConnections := merase connId s1.pendingConnections}
    updateTunnel p.remotePort decActive s2

/-- Body of the close and error handlers registered at 159-164: remove the
external socket from the incomingSockets set of its tunnel. -/
def incomingSocketForget (remotePort sockId : Nat) (s : TM) : TM :=
  updateTunnel remotePort (fun t =>
    {t with incomingSockets := sdelNat sockId t.incomingSockets}) s

/-- Embedding of the synchronous part of handleConnectionReady (207-229): on
an unknown connectionId only a warning is logged and nothing changes;
otherwise the timer is cleared, the pending entry dropped, and either the
external socket is ended (tunnel gone) or the data port is dialed. The
connect, error and close callbacks registered on the data socket are the
separate steps dataSocketConnect, dataSocketError and dataSocketClose, and the
close callback registered on the external socket is promotedClientClose. -/
def handleConnectionReady (clientId connId dataPort : Nat) (s : TM) : TM :=
  match mlookup connId s.pendingConnections with
  | none => s
  | some p =>
    let s1 := s.log [.clearTimer connId]
    let s2 := {s1 with pendingConnections := merase connId s1.pendingConnections}
    match mlookup p.remotePort s2.tunnels with
    | none => s2.log [.sockEnd p.socket]
    | some _ => s2.log [.dial dataPort]

/-- Body of the connect handler on the data socket (231-252): splice and store
the pair in the connections map of the tunnel. -/
def dataSocketConnect (connId remotePort esock dsock : Nat) (s : TM) : TM :=
  updateTunnel remotePort (fun t =>
    {t with connections := mset connId { clientSocket := esock, dataSocket := dsock } t.connections}) s

/-- Body of the error handler on the data socket (254-259): end the external
socket, destroy the data socket, decrement activeConnections. -/
def dataSocketError (remotePort esock dsock : Nat) (s : TM) : TM :=
  updateTunnel remotePort decActive (s.log [.sockEnd esock, .sockDestroy dsock])

/-- Body of the close handler on the data socket (261-265): end the external
socket, drop the pair, decrement activeConnections. -/
def dataSocketClose (connId remotePort esock : Nat) (s : TM) : TM :=
  updateTunnel remotePort (fun t =>
    decActive {t with connections := merase connId t.connections})
    (s.log [.sockEnd esock])

/-- Body of the close handler registered on the external socket by
handleConnectionReady (267-271): end the data socket, drop the pair, decrement
activeConnections. -/
def promotedClientClose (connId remotePort dsock : Nat) (s : TM) : TM :=
  updateTunnel remotePort (fun t =>
    decActive {t with connections := merase connId t.connections})
    (s.log [.sockEnd dsock])

/-- The scan over this.tunnels.values() in cleanupConnection (290-299):
destroy and drop the first matching active pair, then stop. -/
def cleanupScan (connId : Nat) : List (Nat × Tunnel) → List (Nat × Tunnel) × List Act
  | [] => ([], [])
  | (port, t) :: rest =>
    match mlookup connId t.connections with
    | some conn =>
      ((port, decActive {t with connections := merase connId t.connections}) :: rest,
       [.sockDestroy conn.clientSocket, .sockDestroy conn.dataSocket])
    | none =>
      let r := cleanupScan connId rest
      ((port, t) :: r.1, r.2)

/-- Embedding of cleanupConnection (277-300): clear and drop the pending entry
if present (decrementing the stats of its tunnel when the tunnel is still
registered), then scan the tunnels for an active pair under this id. -/
def cleanupConnection (connId : Nat) (s : TM) : TM :=
  let s1 :=
    match mlookup connId s.pendingConnections with
    | none => s
    | some p =>
      let sa := s.log [.clearTimer connId]
      let sb := {sa with pendingConnections := merase connId sa.pendingConnections}
      updateTunnel p.remotePort decActive sb
  let r := cleanupScan connId s1.tunnels
  {s1 with tunnels := r.1, actions := s1.actions ++ r.2}

/-- Destroy actions emitted for the active pairs in unregisterTunnel
(331-339), in map order. -/
def destroyPairs (conns : List (Nat × ConnPair)) : List Act :=
  conns.foldr (fun e acc => Act.sockDestroy e.2.clientSocket :: Act.sockDestroy e.2.dataSocket :: acc) []

/-- Teardown actions for the pending entries of one port in unregisterTunnel
(342-352), in table order: clear the timer, destroy the socket. -/
def pendingTeardownActs (port : Nat) (pend : List (Nat × PendingConn)) : List Act :=
  pend.foldr (fun e acc =>
    if e.2.remotePort = port then Act.clearTimer e.1 :: Act.sockDestroy e.2.socket :: acc
    else acc) []

/-- Embedding of unregisterTunnel (324-367): destroy the active pairs, tear
down the pending entries of this port, close the listener, delete the registry
entry, then sleep 100 ms before returning. -/
def unregisterTunnel (port : Nat) (s : TM) : TM :=
  match mlookup port s.tunnels with
  | none => s
  | some t =>
    let s1 := s.log (destroyPairs t.connections)
    let s2 := updateTunnel port (fun u => {u with connections := []}) s1
    let s3 := s2.log (pendingTeardownActs port s2.pendingConnections)
    let s4 := {s3 with pendingConnections :=
      s3.pendingConnections.filter (fun e => e.2.remotePort != port)}
    let s5 := s4.log [.listenerClose port]
    let s6 := {s5 with tunnels := merase port s5.tunnels}
    let s7 := s6.log [.registryDelete port]
    s7.log [.sleep 100]

/-- Validated messages of the control protocol, after JSON parsing and
validateMessage both succeeded. The auth token field is a string, possibly
empty. -/
inductive Msg
  | auth (token : String)
  | registerTunnelsMsg (specs : List TunnelSpec)
  | connectionReadyMsg (connId dataPort : Nat)
  | connectionClosedMsg (connId : Nat)
  | pong
  | statusRequest
deriving DecidableEq

/-- One frame delivered to the message handler of the control server.
Modelled from the spec: validateMessage lives in common/protocol.js, which is
absent from the provided sources; spec 4.1 says it rejects any message with an
unknown type, missing required fields, or wrong field types. A frame is
malformed when JSON.parse throws and invalid when validateMessage returns
false; otherwise it carries a validated message. -/
inductive Frame
  | malformed
  | invalid
  | valid (m : Msg)
deriving DecidableEq

/-- The object returned by authenticateClient: {success} or
{success, reason}. -/
structure AuthResult where
  success : Bool
  reason : Option String
deriving DecidableEq

/-- Embedding of authenticateClient (control-server module 136-153): a JS
falsy token (absent, or the empty string) is rejected outright with reason
"No token provided"; with an empty configured allowlist every remaining token
is accepted (the source logs a warning in that case); otherwise list
membership decides, failures getting reason "Invalid token". -/
def authenticateClient (authTokens : List String) (token : Option String) : AuthResult :=
  match token with
  | none => { success := false, reason := some "No token provided" }
  | some t =>
    if t = "" then { success := false, reason := some "No token provided" }
    else if authTokens = [] then { success := true, reason := none }
    else if t ∈ authTokens then { success := true, reason := none }
    else { success := false, reason := some "Invalid token" }

/-- Per-connection state of handleConnection (55-131): the authenticated and
clientId locals, plus whether ws.close() has been called on this socket. -/
structure WsConn where
  authenticated : Bool
  clientId : Option Nat
  closed : Bool
deriving DecidableEq

/-- Control-server state relevant to the claims: the configured tokens and the
clients map (clientId mapped to the tunnels list of its record). -/
structure CS where
  authTokens : List String
  clients : List (Nat × List TunnelSpec)
deriving DecidableEq

/-- Externally visible effects of one message delivery on the control
server, in order. -/
inductive CtlEffect
  | sendAuthSuccess (clientId : Nat)
  | sendAuthFailed (reason : String)
  | closeWs
  | warnInvalidMessage
  | warnUnknownType
  | logCatchError
  | emitClientAuthenticated (clientId : Nat)
  | emitRegisterTunnels (clientId : Nat) (specs : List TunnelSpec)
  | emitConnectionReady (clientId connId dataPort : Nat)
  | emitConnectionClosed (clientId connId : Nat)
  | sendStatus (clientId : Nat)
deriving DecidableEq

/-- Embedding of handleMessage (158-183), the dispatch for authenticated
clients: known types are emitted or answered, and an unhandled type (for
example a second auth message) only logs a warning. No branch closes the
socket. -/
def handleMessage (cs : CS) (w : WsConn) (m : Msg) : CS × WsConn × List CtlEffect :=
  let cid := w.clientId.getD 0
  match m with
  | .registerTunnelsMsg specs =>
    match mlookup cid cs.clients with
    | none => (cs, w, [])
    | some _ =>
      ({cs with clients := mset cid specs cs.clients}, w, [.emitRegisterTunnels cid specs])
  | .connectionReadyMsg connId dataPort => (cs, w, [.emitConnectionReady cid connId dataPort])
  | .connectionClosedMsg connId => (cs, w, [.emitConnectionClosed cid connId])
  | .pong => (cs, w, [])
  | .statusRequest =>
    match mlookup cid cs.clients with
    | none => (cs, w, [])
    | some _ => (cs, w, [.sendStatus cid])
  | .auth _ => (cs, w, [.warnUnknownType])

/-- Embedding of one delivery of the message handler installed by
handleConnection (62-112). A JSON parse failure is caught and logged; a frame
failing validateMessage is logged and dropped before the authentication check;
an unauthenticated valid auth frame runs authenticateClient, on success
storing a fresh client record under freshId (modelling generateClientId) and
answering auth_success, on failure answering auth_failed and closing; any
other unauthenticated valid frame closes the socket; authenticated frames go
to handleMessage. -/
def onMessage (cs : CS) (w : WsConn) (frame : Frame) (freshId : Nat) :
    CS × WsConn × List CtlEffect :=
  match frame with
  | .malformed => (cs, w, [.logCatchError])
  | .invalid => (cs, w, [.warnInvalidMessage])
  | .valid m =>
    if !w.authenticated then
      match m with
      | .auth token =>
        let r := authenticateClient cs.authTokens (some token)
        if r.success then
          ({cs with clients := mset freshId [] cs.clients},
           {w with authenticated := true, clientId := some freshId},
           [.sendAuthSuccess freshId, .emitClientAuthenticated freshId])
        else
          (cs, {w with closed := true}, [.sendAuthFailed (r.reason.getD ""), .closeWs])
      | _ => (cs, {w with closed := true}, [.closeWs])
    else
      handleMessage cs w m

/-- One registry-level operation of the tunnel registry: a registration
request (through the retry wrapper, as registerTunnels drives it) or an
unregistration. -/
inductive Op
  | register (clientId : Nat) (spec : TunnelSpec) (binds : Nat → BindOutcome)
  | unregister (port : Nat)

/-- Apply one registry operation. -/
def applyOp (s : TM) : Op → TM
  | .register c spec binds => (registerTunnelWithRetry c spec binds 0 s).1
  | .unregister p => unregisterTunnel p s

/-- Whether an operation succeeds on a given state: a registration succeeds
when the retry wrapper returns the success value, an unregistration when the
port was registered. -/
def opSuccess (s : TM) : Op → Bool
  | .register c spec binds =>
    match (registerTunnelWithRetry c spec binds 0 s).2 with
    | .ok _ => true
    | .error _ => false
  | .unregister p => (mlookup p s.tunnels).isSome

/-- Run a sequence of registry operations. -/
def runOps : TM → List Op → TM
  | s, [] => s
  | s, op :: ops => runOps (applyOp s op) ops

/-- Number of successful register operations along a run. -/
def succRegCount : TM → List Op → Nat
  | _, [] => 0
  | s, op :: ops =>
    (match op with
     | .register _ _ _ => if opSuccess s op then 1 else 0
     | .unregister _ => 0) + succRegCount (applyOp s op) ops

/-- Number of successful unregister operations along a run. -/
def succUnregCount : TM → List Op → Nat
  | _, [] => 0
  | s, op :: ops =>
    (match op with
     | .register _ _ _ => 0
     | .unregister _ => if opSuccess s op then 1 else 0) + succUnregCount (applyOp s op) ops

theorem log_tunnels (s : TM) (a : List Act) : (s.log a).tunnels = s.tunnels := rfl

theorem log_allowedPorts (s : TM) (a : List Act) : (s.log a).allowedPorts = s.allowedPorts := rfl

theorem log_pendingConnections (s : TM) (a : List Act) :
    (s.log a).pendingConnections = s.pendingConnections := rfl

theorem log_actions (s : TM) (a : List Act) : (s.log a).actions = s.actions ++ a := rfl

theorem mlookup_eq_none_iff {α : Type} (k : Nat) (l : List (Nat × α)) :
    mlookup k l = none ↔ k ∉ mkeys l := by
  induction l with
  | nil => simp [mlookup, mkeys]
  | cons e rest ih =>
    obtain ⟨k', v⟩ := e
    by_cases h : k' = k
    · subst h; simp [mlookup, mkeys]
    · simp [mlookup, mkeys, h, ih, Ne.symm h]

theorem mset_of_absent {α : Type} (k : Nat) (v : α) (l : List (Nat × α))
    (h : mlookup k l = none) : mset k v l = l ++ [(k, v)] := by
  simp [mset, h]

theorem mkeys_append {α : Type} (l₁ l₂ : List (Nat × α)) :
    mkeys (l₁ ++ l₂) = mkeys l₁ ++ mkeys l₂ := by
  simp [mkeys]

theorem mlookup_merase_self {α : Type} (k : Nat) (l : List (Nat × α)) :
    mlookup k (merase k l) = none := by
  induction l with
  | nil => simp [merase, mlookup]
  | cons e rest ih =>
    by_cases h : e.1 = k
    · simpa [merase, h] using ih
    · simpa [merase, mlookup, h] using ih

theorem merase_of_absent {α : Type} (k : Nat) (l : List (Nat × α))
    (h : mlookup k l = none) : merase k l = l := by
  induction l with
  | nil => rfl
  | cons e rest ih =>
    obtain ⟨k', v⟩ := e
    by_cases hk : k' = k
    · simp [mlookup, hk] at h
    · simp only [mlookup, if_neg hk] at h
      have hr := ih h
      simp only [merase] at hr ⊢
      simp [List.filter_cons, hk, hr]

theorem merase_sublist {α : Type} (k : Nat) (l : List (Nat × α)) :
    List.Sublist (merase k l) l :=
  List.filter_sublist l

theorem mkeys_nodup_merase {α : Type} (k : Nat) (l : List (Nat × α))
    (h : (mkeys l).Nodup) : (mkeys (merase k l)).Nodup :=
  List.Nodup.sublist (List.Sublist.map Prod.fst (merase_sublist k l)) h

theorem length_merase_of_present {α : Type} (k : Nat) (l : List (Nat × α))
    (hnd : (mkeys l).Nodup) (h : (mlookup k l).isSome) :
    (merase k l).length + 1 = l.length := by
  induction l with
  | nil => simp [mlookup] at h
  | cons e rest ih =>
    obtain ⟨k', v⟩ := e
    simp only [mkeys, List.map_cons, List.nodup_cons] at hnd
    by_cases hk : k' = k
    · subst hk
      have habs : mlookup k' rest = none :=
        (mlookup_eq_none_iff k' rest).mpr (by simpa [mkeys] using hnd.1)
      have hr : merase k' rest = rest := merase_of_absent _ _ habs
      simp only [merase] at hr ⊢
      simp [List.filter_cons, hr]
    · simp only [mlookup, if_neg hk] at h
      have hrec := ih (by simpa [mkeys] using hnd.2) h
      have hstep : List.filter (fun (e : Nat × α) => e.1 != k) ((k', v) :: rest)
          = (k', v) :: List.filter (fun e => e.1 != k) rest := by
        simp [List.filter_cons, bne_iff_ne, hk]
      simp only [merase] at hrec ⊢
      rw [hstep]
      simp only [List.length_cons]
      omega

theorem mkeys_nodup_mset_absent {α : Type} (k : Nat) (v : α) (l : List (Nat × α))
    (hnd : (mkeys l).Nodup) (h : mlookup k l = none) :
    (mkeys (mset k v l)).Nodup := by
  rw [mset_of_absent k v l h, mkeys_append]
  have hk : k ∉ mkeys l := (mlookup_eq_none_iff k l).mp h
  rw [List.nodup_append]
  refine ⟨hnd, by simp [mkeys], fun a ha hb => ?_⟩
  simp only [mkeys, List.map_cons, List.map_nil, List.mem_singleton] at hb
  subst hb
  exact hk ha

theorem length_mset_absent {α : Type} (k : Nat) (v : α) (l : List (Nat × α))
    (h : mlookup k l = none) : (mset k v l).length = l.length + 1 := by
  simp [mset_of_absent k v l h]

theorem setAt_fst (port : Nat) (f : Tunnel → Tunnel) (e : Nat × Tunnel) :
    (setAt port f e).1 = e.1 := by
  by_cases h : e.1 = port <;> simp [setAt, h]

theorem setAt_of_eq (port : Nat) (f : Tunnel → Tunnel) (t : Tunnel) :
    setAt port f (port, t) = (port, f t) := by
  simp [setAt]

theorem setAt_of_ne (port : Nat) (f : Tunnel → Tunnel) (k : Nat) (t : Tunnel)
    (h : k ≠ port) : setAt port f (k, t) = (k, t) := by
  simp [setAt, h]

theorem mkeys_updateTunnel (port : Nat) (f : Tunnel → Tunnel) (s : TM) :
    mkeys (updateTunnel port f s).tunnels = mkeys s.tunnels := by
  simp only [updateTunnel, mkeys, List.map_map]
  congr 1
  funext e
  simp [setAt_fst]

theorem length_updateTunnel (port : Nat) (f : Tunnel → Tunnel) (s : TM) :
    (updateTunnel port f s).tunnels.length = s.tunnels.length := by
  simp [updateTunnel]

theorem mlookup_updateTunnel_self (port : Nat) (f : Tunnel → Tunnel) (s : TM) :
    mlookup port (updateTunnel port f s).tunnels = (mlookup port s.tunnels).map f := by
  simp only [updateTunnel]
  induction s.tunnels with
  | nil => simp [mlookup]
  | cons e rest ih =>
    obtain ⟨k, t⟩ := e
    simp only [List.map_cons]
    by_cases h : k = port
    · subst h
      rw [setAt_of_eq]
      simp [mlookup]
    · rw [setAt_of_ne _ _ _ _ h]
      simp [mlookup, h, ih]

theorem mlookup_updateTunnel_ne (q port : Nat) (f : Tunnel → Tunnel) (s : TM)
    (h : q ≠ port) :
    mlookup q (updateTunnel port f s).tunnels = mlookup q s.tunnels := by
  simp only [updateTunnel]
  induction s.tunnels with
  | nil => simp
  | cons e rest ih =>
    obtain ⟨k, t⟩ := e
    simp only [List.map_cons]
    by_cases he : k = port
    · subst he
      have hkq : k ≠ q := fun hc => h hc.symm
      rw [setAt_of_eq]
      simp [mlookup, hkq, ih]
    · rw [setAt_of_ne _ _ _ _ he]
      by_cases hq : k = q <;> simp [mlookup, hq, ih]

theorem updateTunnel_pendingConnections (port : Nat) (f : Tunnel → Tunnel) (s : TM) :
    (updateTunnel port f s).pendingConnections = s.pendingConnections := rfl

theorem updateTunnel_actions (port : Nat) (f : Tunnel → Tunnel) (s : TM) :
    (updateTunnel port f s).actions = s.actions := rfl

theorem updateTunnel_allowedPorts (port : Nat) (f : Tunnel → Tunnel) (s : TM) :
    (updateTunnel port f s).allowedPorts = s.allowedPorts := rfl

/-- A small concrete state shared by the witnesses: one tunnel on port 80
owned by client 7, one active pair (id 3, sockets 31 and 32), one pending
connection (id 4, socket 41), and one incoming socket (77) accounted for by
neither. -/
def demoTunnel : Tunnel :=
  { clientId := 7, localPort := 8080, name := "web",
    connections := [(3, { clientSocket := 31, dataSocket := 32 })],
    incomingSockets := [31, 41, 77],
    stats := { totalConnections := 2, activeConnections := 2, bytesIn := 0, bytesOut := 0 } }

/-- The demo TunnelManager state around demoTunnel. -/
def demoTM : TM :=
  { allowedPorts := [], tunnels := [(80, demoTunnel)],
    pendingConnections := [(4, { socket := 41, remotePort := 80 })],
    actions := [] }

/-- C10: when the connectionId is not in the pending-connection table,
handleConnectionReady leaves the whole TunnelManager state unchanged — the
tunnel registry, the pending table, every connections map and all stats are
identical, and the untouched action log shows that no socket is dialed, ended
or destroyed. -/
theorem claim10_ready_unknown_id_noop (clientId connId dataPort : Nat) (s : TM)
    (h : mlookup connId s.pendingConnections = none) :
    handleConnectionReady clientId connId dataPort s = s := by
  simp [handleConnectionReady, h]

/-- Witness for C10: connection id 5 is unknown in the demo state and the
call changes nothing. -/
theorem claim10_witness :
    mlookup 5 demoTM.pendingConnections = none ∧
    handleConnectionReady 1 5 4000 demoTM = demoTM :=
  ⟨by decide, claim10_ready_unknown_id_noop 1 5 4000 demoTM (by decide)⟩

/-- Whether a registry entry owns an active pair under the given id. -/
def ownsConn (connId : Nat) (e : Nat × Tunnel) : Bool :=
  (mlookup connId e.2.connections).isSome

theorem cleanupScan_of_none (connId : Nat) (l : List (Nat × Tunnel))
    (h : ∀ e ∈ l, ownsConn connId e = false) :
    cleanupScan connId l = (l, []) := by
  induction l with
  | nil => rfl
  | cons e rest ih =>
    obtain ⟨port, t⟩ := e
    have he := h (port, t) (List.mem_cons_self _ _)
    simp only [ownsConn] at he
    have hl : mlookup connId t.connections = none := by
      cases hx : mlookup connId t.connections with
      | none => rfl
      | some _ => rw [hx] at he; simp at he
    have ihr := ih (fun x hx => h x (List.mem_cons_of_mem _ hx))
    simp [cleanupScan, hl, ihr]

theorem cleanupScan_owners (connId : Nat) (l : List (Nat × Tunnel))
    (h : l.countP (ownsConn connId) ≤ 1) :
    ∀ e ∈ (cleanupScan connId l).1, ownsConn connId e = false := by
  induction l with
  | nil => intro e he; simp [cleanupScan] at he
  | cons hd rest ih =>
    obtain ⟨port, t⟩ := hd
    cases hx : mlookup connId t.connections with
    | some conn =>
      have hcnt : ((port, t) :: rest).countP (ownsConn connId)
          = rest.countP (ownsConn connId) + 1 := by
        simp [List.countP_cons, ownsConn, hx]
      have hzero : rest.countP (ownsConn connId) = 0 := by omega
      intro e he
      simp only [cleanupScan, hx] at he
      rcases List.mem_cons.mp he with rfl | hmem
      · simp [ownsConn, decActive, mlookup_merase_self]
      · have hall := List.countP_eq_zero.mp hzero e hmem
        simpa using hall
    | none =>
      intro e he
      simp only [cleanupScan, hx] at he
      rcases List.mem_cons.mp he with rfl | hmem
      · simp [ownsConn, hx]
      · refine ih ?_ e hmem
        have : ((port, t) :: rest).countP (ownsConn connId)
            = rest.countP (ownsConn connId) := by
          simp [List.countP_cons, ownsConn, hx]
        omega

theorem cleanup_noop (connId : Nat) (s : TM)
    (hp : mlookup connId s.pendingConnections = none)
    (ho : ∀ e ∈ s.tunnels, ownsConn connId e = false) :
    cleanupConnection connId s = s := by
  simp [cleanupConnection, hp, cleanupScan_of_none connId s.tunnels ho]

theorem ownsConn_setAt (connId port : Nat) (e : Nat × Tunnel) :
    ownsConn connId (setAt port decActive e) = ownsConn connId e := by
  by_cases h : e.1 = port <;> simp [setAt, h, ownsConn, decActive]

theorem countP_owns_updateTunnel (connId port : Nat) (s : TM) :
    (updateTunnel port decActive s).tunnels.countP (ownsConn connId)
      = s.tunnels.countP (ownsConn connId) := by
  simp only [updateTunnel]
  rw [List.countP_map]
  exact List.countP_congr (fun e _ => by
    simp [Function.comp, ownsConn_setAt connId port e])

theorem cleanup_pending_after (connId : Nat) (s : TM) :
    mlookup connId (cleanupConnection connId s).pendingConnections = none := by
  cases hx : mlookup connId s.pendingConnections with
  | none => simp [cleanupConnection, hx]
  | some p => simp [cleanupConnection, hx, updateTunnel, mlookup_merase_self]

theorem cleanup_owners_after (connId : Nat) (s : TM)
    (h : s.tunnels.countP (ownsConn connId) ≤ 1) :
    ∀ e ∈ (cleanupConnection connId s).tunnels, ownsConn connId e = false := by
  cases hx : mlookup connId s.pendingConnections with
  | none =>
    intro e he
    simp only [cleanupConnection, hx] at he
    exact cleanupScan_owners connId s.tunnels h e he
  | some p =>
    intro e he
    simp only [cleanupConnection, hx] at he
    have hcnt : (updateTunnel p.remotePort decActive
        {s.log [Act.clearTimer connId] with
          pendingConnections := merase connId (s.log [Act.clearTimer connId]).pendingConnections}).tunnels.countP
        (ownsConn connId) ≤ 1 := by
      rw [countP_owns_updateTunnel]
      simpa using h
    exact cleanupScan_owners connId _ hcnt e he

/-- C2: cleanupConnection is idempotent. In any state where at most one
tunnel owns an active pair under the id (true of every state the program
reaches, since connection ids are unique), applying cleanupConnection twice
yields exactly the state of applying it once: the pending table, every
connections map, all stats, and even the action log are unchanged by the
second call. -/
theorem claim2_cleanup_idempotent (connId : Nat) (s : TM)
    (h : s.tunnels.countP (ownsConn connId) ≤ 1) :
    cleanupConnection connId (cleanupConnection connId s) = cleanupConnection connId s :=
  cleanup_noop connId (cleanupConnection connId s)
    (cleanup_pending_after connId s)
    (cleanup_owners_after connId s h)

/-- Witness for C2 at the demo state, for the id that is both pending and
active nowhere else. -/
theorem claim2_witness :
    demoTM.tunnels.countP (ownsConn 3) ≤ 1 ∧
    cleanupConnection 3 (cleanupConnection 3 demoTM) = cleanupConnection 3 demoTM :=
  ⟨by decide, claim2_cleanup_idempotent 3 demoTM (by decide)⟩

/-- Counterexample for C9 as stated: when sendToClient fails, the accepted
external socket is never destroyed. The source calls socket.end(), a graceful
close, so the run records sockEnd for it and no sockDestroy. -/
theorem claim9_counterexample :
    Act.sockDestroy 100 ∉ (handleIncomingConnection 7 80 100 9 false demoTM).actions
    ∧ Act.sockEnd 100 ∈ (handleIncomingConnection 7 80 100 9 false demoTM).actions := by
  decide

/-- C9 (amended): when the send of new_connection fails, the external socket
is ended (graceful close via socket.end, not destroy), no pending record for
the fresh connectionId is present afterwards, and activeConnections of the
tunnel is restored to its value before the accept. -/
theorem claim9_failed_send_cleanup (clientId remotePort sockId connId : Nat) (s : TM)
    (t : Tunnel) (ht : mlookup remotePort s.tunnels = some t)
    (hfresh : mlookup connId s.pendingConnections = none) :
    (handleIncomingConnection clientId remotePort sockId connId false s).actions
      = s.actions ++ [Act.sendNewConnection clientId connId, Act.sockEnd sockId]
    ∧ mlookup connId
        (handleIncomingConnection clientId remotePort sockId connId false s).pendingConnections
      = none
    ∧ (mlookup remotePort
        (handleIncomingConnection clientId remotePort sockId connId false s).tunnels).map
          (fun u => u.stats.activeConnections)
      = some t.stats.activeConnections := by
  refine ⟨?_, ?_, ?_⟩
  · simp [handleIncomingConnection, ht, updateTunnel, TM.log]
  · simp [handleIncomingConnection, ht, updateTunnel, TM.log, hfresh]
  · simp only [handleIncomingConnection, ht, Bool.not_false, if_true]
    rw [mlookup_updateTunnel_self, log_tunnels, log_tunnels, mlookup_updateTunnel_self, ht]
    simp [decActive]

/-- Witness for C9 (amended) at the demo state. -/
theorem claim9_witness :
    mlookup 80 demoTM.tunnels = some demoTunnel ∧
    mlookup 9 demoTM.pendingConnections = none ∧
    (handleIncomingConnection 7 80 100 9 false demoTM).actions
      = demoTM.actions ++ [Act.sendNewConnection 7 9, Act.sockEnd 100] :=
  ⟨by decide, by decide,
    (claim9_failed_send_cleanup 7 80 100 9 demoTM demoTunnel (by decide) (by decide)).1⟩

theorem mem_destroyPairs (a : Act) (conns : List (Nat × ConnPair)) :
    a ∈ destroyPairs conns ↔
      ∃ e ∈ conns, a = Act.sockDestroy e.2.clientSocket ∨ a = Act.sockDestroy e.2.dataSocket := by
  induction conns with
  | nil => simp [destroyPairs]
  | cons e rest ih =>
    simp only [destroyPairs, List.foldr_cons, List.mem_cons] at ih ⊢
    constructor
    · rintro (rfl | rfl | h)
      · exact ⟨e, Or.inl rfl, Or.inl rfl⟩
      · exact ⟨e, Or.inl rfl, Or.inr rfl⟩
      · obtain ⟨x, hx, hor⟩ := ih.mp h
        exact ⟨x, Or.inr hx, hor⟩
    · rintro ⟨x, hx | hx, hor⟩
      · subst hx
        rcases hor with rfl | rfl
        · exact Or.inl rfl
        · exact Or.inr (Or.inl rfl)
      · exact Or.inr (Or.inr (ih.mpr ⟨x, hx, hor⟩))

theorem mem_pendingTeardownActs (a : Act) (port : Nat) (pend : List (Nat × PendingConn)) :
    a ∈ pendingTeardownActs port pend ↔
      ∃ e ∈ pend, e.2.remotePort = port ∧
        (a = Act.clearTimer e.1 ∨ a = Act.sockDestroy e.2.socket) := by
  induction pend with
  | nil => simp [pendingTeardownActs]
  | cons e rest ih =>
    by_cases h : e.2.remotePort = port
    · simp only [pendingTeardownActs, List.foldr_cons, if_pos h, List.mem_cons] at ih ⊢
      constructor
      · rintro (rfl | rfl | hr)
        · exact ⟨e, Or.inl rfl, h, Or.inl rfl⟩
        · exact ⟨e, Or.inl rfl, h, Or.inr rfl⟩
        · obtain ⟨x, hx, hp, hor⟩ := ih.mp hr
          exact ⟨x, Or.inr hx, hp, hor⟩
      · rintro ⟨x, hx | hx, hp, hor⟩
        · subst hx
          rcases hor with rfl | rfl
          · exact Or.inl rfl
          · exact Or.inr (Or.inl rfl)
        · exact Or.inr (Or.inr (ih.mpr ⟨x, hx, hp, hor⟩))
    · simp only [pendingTeardownActs, List.foldr_cons, if_neg h, List.mem_cons] at ih ⊢
      rw [ih]
      constructor
      · rintro ⟨x, hx, hp, hor⟩
        exact ⟨x, Or.inr hx, hp, hor⟩
      · rintro ⟨x, hx | hx', hp, hor⟩
        · subst hx; exact absurd hp h
        · exact ⟨x, hx', hp, hor⟩

/-- Counterexample for C3 as stated: tunnel teardown never destroys the
sockets that sit only in incomingSockets (socket 77 in the demo state), and
the tunnel is removed from the registry before the 100 ms sleep, not after
it, as the recorded teardown trace shows. -/
theorem claim3_counterexample :
    77 ∈ demoTunnel.incomingSockets
    ∧ (∀ a ∈ (unregisterTunnel 80 demoTM).actions,
        a ≠ Act.sockDestroy 77 ∧ a ≠ Act.sockEnd 77)
    ∧ (unregisterTunnel 80 demoTM).actions
      = [Act.sockDestroy 31, Act.sockDestroy 32, Act.clearTimer 4, Act.sockDestroy 41,
         Act.listenerClose 80, Act.registryDelete 80, Act.sleep 100] := by
  refine ⟨by decide, ?_, by decide⟩
  decide

/-- C3 (amended): unregisterTunnel destroys both sockets of every active
pair and tears down every pending connection of the tunnel (clearing its
timer and destroying its socket) before the listener is closed; sockets that
sit only in incomingSockets are not separately ended or destroyed; after the
listener close callback the Tunnel is removed from the registry immediately,
and the 100 ms sleep follows the removal, so the function returns (and the
port becomes reusable) only after the sleep. -/
theorem claim3_teardown_order (port : Nat) (s : TM) (t : Tunnel)
    (ht : mlookup port s.tunnels = some t) :
    ∃ pre : List Act,
      (unregisterTunnel port s).actions
        = s.actions ++ pre ++ [Act.listenerClose port, Act.registryDelete port, Act.sleep 100]
      ∧ (∀ e ∈ t.connections,
          Act.sockDestroy e.2.clientSocket ∈ pre ∧ Act.sockDestroy e.2.dataSocket ∈ pre)
      ∧ (∀ e ∈ s.pendingConnections, e.2.remotePort = port →
          Act.clearTimer e.1 ∈ pre ∧ Act.sockDestroy e.2.socket ∈ pre)
      ∧ (∀ x ∈ t.incomingSockets,
          (∀ e ∈ t.connections, x ≠ e.2.clientSocket ∧ x ≠ e.2.dataSocket) →
          (∀ e ∈ s.pendingConnections, x ≠ e.2.socket) →
          Act.sockDestroy x ∉ pre ∧ Act.sockEnd x ∉ pre)
      ∧ mlookup port (unregisterTunnel port s).tunnels = none := by
  refine ⟨destroyPairs t.connections ++ pendingTeardownActs port s.pendingConnections,
    ?_, ?_, ?_, ?_, ?_⟩
  · simp [unregisterTunnel, ht, TM.log, updateTunnel]
  · intro e he
    exact ⟨List.mem_append_left _ ((mem_destroyPairs _ _).mpr ⟨e, he, Or.inl rfl⟩),
      List.mem_append_left _ ((mem_destroyPairs _ _).mpr ⟨e, he, Or.inr rfl⟩)⟩
  · intro e he hp
    exact ⟨List.mem_append_right _ ((mem_pendingTeardownActs _ _ _).mpr ⟨e, he, hp, Or.inl rfl⟩),
      List.mem_append_right _ ((mem_pendingTeardownActs _ _ _).mpr ⟨e, he, hp, Or.inr rfl⟩)⟩
  · intro x _ h1 h2
    constructor
    · intro hmem
      rcases List.mem_append.mp hmem with hd | hp
      · obtain ⟨e, he, hor⟩ := (mem_destroyPairs _ _).mp hd
        rcases hor with heq | heq
        · exact (h1 e he).1 (by injection heq)
        · exact (h1 e he).2 (by injection heq)
      · obtain ⟨e, he, _, hor⟩ := (mem_pendingTeardownActs _ _ _).mp hp
        rcases hor with heq | heq
        · exact Act.noConfusion heq
        · exact h2 e he (by injection heq)
    · intro hmem
      rcases List.mem_append.mp hmem with hd | hp
      · obtain ⟨e, he, hor⟩ := (mem_destroyPairs _ _).mp hd
        rcases hor with heq | heq <;> exact Act.noConfusion heq
      · obtain ⟨e, he, _, hor⟩ := (mem_pendingTeardownActs _ _ _).mp hp
        rcases hor with heq | heq <;> exact Act.noConfusion heq
  · simp [unregisterTunnel, ht, TM.log, updateTunnel, mlookup_merase_self]

/-- Witness for C3 (amended) at the demo state. -/
theorem claim3_witness :
    mlookup 80 demoTM.tunnels = some demoTunnel ∧
    mlookup 80 (unregisterTunnel 80 demoTM).tunnels = none := by
  refine ⟨by decide, ?_⟩
  obtain ⟨pre, -, -, -, -, hnone⟩ := claim3_teardown_order 80 demoTM demoTunnel (by decide)
  exact hnone

/-- The freshly registered tunnel the claim 1 run starts from. -/
def runStartTunnel : Tunnel :=
  { clientId := 7, localPort := 8080, name := "web",
    connections := [], incomingSockets := [],
    stats := { totalConnections := 0, activeConnections := 0, bytesIn := 0, bytesOut := 0 } }

/-- Initial state for the claim 1 run: one freshly registered tunnel on port
80 with zero counters and no connections. -/
def runStart : TM :=
  { allowedPorts := [], tunnels := [(80, runStartTunnel)],
    pendingConnections := [], actions := [] }

/-- The claim 1 run: one external connection (socket 100, id 1) is accepted
and announced successfully, promoted by connection_ready (data socket 200),
spliced on connect; then the client side closes the data socket (its close
handler ends the external socket and decrements), and the external socket
close event follows, running its three registered handlers in registration
order: the incomingSockets removal, cleanupConnection, and the close handler
added by handleConnectionReady, which decrements again. -/
def claim1Run : TM :=
  promotedClientClose 1 80 200
    (cleanupConnection 1
      (incomingSocketForget 80 100
        (dataSocketClose 1 80 100
          (dataSocketConnect 1 80 100 200
            (handleConnectionReady 7 1 5000
              (handleIncomingConnection 7 80 100 1 true runStart))))))

/-- C1: evidence for the code bug. After one accepted external connection is
promoted and then fully closed, activeConnections of the tunnel ends at -1,
not at its prior value 0: the counter was incremented once but decremented
twice (once by the data socket close handler, once more by the external
socket close handler registered in handleConnectionReady), even though the
pending table and the connections map are empty at every step end as the
claimed invariant requires. -/
theorem claim1_double_decrement_bug :
    (mlookup 80 claim1Run.tunnels).map (fun t => t.stats.activeConnections) = some (-1)
    ∧ claim1Run.pendingConnections = []
    ∧ (mlookup 80 claim1Run.tunnels).map (fun t => t.connections) = some [] := by
  decide

theorem log_log (s : TM) (a b : List Act) : (s.log a).log b = s.log (a ++ b) := by
  simp [TM.log]

theorem registerTunnel_addrInUse (c : Nat) (spec : TunnelSpec) (s : TM)
    (hfree : mlookup spec.remotePort s.tunnels = none)
    (hallow : isPortAllowed spec.remotePort s.allowedPorts = true) :
    registerTunnel c spec .addrInUse s
      = (s.log [Act.tryBind spec.remotePort], .error (.bindError "EADDRINUSE")) := by
  simp [registerTunnel, hfree, hallow]

theorem registerTunnel_otherErr (c : Nat) (spec : TunnelSpec) (code : String) (s : TM)
    (hfree : mlookup spec.remotePort s.tunnels = none)
    (hallow : isPortAllowed spec.remotePort s.allowedPorts = true) :
    registerTunnel c spec (.otherErr code) s
      = (s.log [Act.tryBind spec.remotePort], .error (.bindError code)) := by
  simp [registerTunnel, hfree, hallow]

theorem retry_addrInUse_step (c : Nat) (spec : TunnelSpec) (binds : Nat → BindOutcome)
    (attempt : Nat) (hatt : attempt < 3) (s : TM)
    (hb : binds attempt = .addrInUse)
    (hfree : mlookup spec.remotePort s.tunnels = none)
    (hallow : isPortAllowed spec.remotePort s.allowedPorts = true) :
    registerTunnelWithRetry c spec binds attempt s
      = registerTunnelWithRetry c spec binds (attempt + 1)
          (s.log [Act.tryBind spec.remotePort, Act.sleep 500]) := by
  rw [registerTunnelWithRetry, hb, registerTunnel_addrInUse c spec s hfree hallow]
  simp only [RegError.code]
  rw [dif_pos ⟨trivial, hatt⟩]
  simp [TM.log]

theorem retry_stop_addrInUse (c : Nat) (spec : TunnelSpec) (binds : Nat → BindOutcome)
    (s : TM) (hb : binds 3 = .addrInUse)
    (hfree : mlookup spec.remotePort s.tunnels = none)
    (hallow : isPortAllowed spec.remotePort s.allowedPorts = true) :
    registerTunnelWithRetry c spec binds 3 s
      = (s.log [Act.tryBind spec.remotePort], .error (.bindError "EADDRINUSE")) := by
  rw [registerTunnelWithRetry, hb, registerTunnel_addrInUse c spec s hfree hallow]
  simp

theorem retry_persistent_addrInUse (c : Nat) (spec : TunnelSpec) (s : TM)
    (hfree : mlookup spec.remotePort s.tunnels = none)
    (hallow : isPortAllowed spec.remotePort s.allowedPorts = true)
    (binds : Nat → BindOutcome) (hb : ∀ n, binds n = .addrInUse) :
    registerTunnelWithRetry c spec binds 0 s
      = (s.log [Act.tryBind spec.remotePort, Act.sleep 500,
                Act.tryBind spec.remotePort, Act.sleep 500,
                Act.tryBind spec.remotePort, Act.sleep 500,
                Act.tryBind spec.remotePort],
         .error (.bindError "EADDRINUSE")) := by
  rw [retry_addrInUse_step c spec binds 0 (by omega) s (hb 0) hfree hallow]
  rw [retry_addrInUse_step c spec binds 1 (by omega)
    (s.log [Act.tryBind spec.remotePort, Act.sleep 500]) (hb 1) hfree hallow]
  rw [retry_addrInUse_step c spec binds 2 (by omega)
    ((s.log [Act.tryBind spec.remotePort, Act.sleep 500]).log
      [Act.tryBind spec.remotePort, Act.sleep 500]) (hb 2) hfree hallow]
  rw [retry_stop_addrInUse c spec binds
    (((s.log [Act.tryBind spec.remotePort, Act.sleep 500]).log
      [Act.tryBind spec.remotePort, Act.sleep 500]).log
      [Act.tryBind spec.remotePort, Act.sleep 500]) (hb 3) hfree hallow]
  simp [TM.log]

theorem retry_immediate_otherErr (c : Nat) (spec : TunnelSpec) (s : TM)
    (hfree : mlookup spec.remotePort s.tunnels = none)
    (hallow : isPortAllowed spec.remotePort s.allowedPorts = true)
    (binds : Nat → BindOutcome) (code : String) (hc : code ≠ "EADDRINUSE")
    (hb : binds 0 = .otherErr code) :
    registerTunnelWithRetry c spec binds 0 s
      = (s.log [Act.tryBind spec.remotePort], .error (.bindError code)) := by
  rw [registerTunnelWithRetry, hb, registerTunnel_otherErr c spec code s hfree hallow]
  simp [RegError.code, hc]

/-- C4: the bind retry policy. With the port free in the registry and inside
the allowlist, (a) a listener bind that keeps failing with EADDRINUSE is
attempted 4 times in all — the initial try plus 3 retries spaced by 500 ms
sleeps — and only then is the error surfaced (registerTunnels turns it into
tunnel_failed); (b) a bind failure of any other error class is surfaced
immediately after the single attempt, with no sleep and no retry. -/
theorem claim4_bind_retry_policy (c : Nat) (spec : TunnelSpec) (s : TM)
    (hfree : mlookup spec.remotePort s.tunnels = none)
    (hallow : isPortAllowed spec.remotePort s.allowedPorts = true) :
    (∀ binds : Nat → BindOutcome, (∀ n, binds n = .addrInUse) →
      registerTunnelWithRetry c spec binds 0 s
        = (s.log [Act.tryBind spec.remotePort, Act.sleep 500,
                  Act.tryBind spec.remotePort, Act.sleep 500,
                  Act.tryBind spec.remotePort, Act.sleep 500,
                  Act.tryBind spec.remotePort],
           .error (.bindError "EADDRINUSE")))
    ∧ (∀ binds : Nat → BindOutcome, ∀ code, code ≠ "EADDRINUSE" → binds 0 = .otherErr code →
      registerTunnelWithRetry c spec binds 0 s
        = (s.log [Act.tryBind spec.remotePort], .error (.bindError code))) :=
  ⟨fun binds hb => retry_persistent_addrInUse c spec s hfree hallow binds hb,
   fun binds code hc hb => retry_immediate_otherErr c spec s hfree hallow binds code hc hb⟩

/-- A TunnelManager state with nothing registered and all ports allowed. -/
def emptyTM : TM :=
  { allowedPorts := [], tunnels := [], pendingConnections := [], actions := [] }

/-- Witness for C4 on the empty state and port 3000: the persistent
port-in-use run makes 4 bind attempts separated by three 500 ms sleeps before
surfacing the error. -/
theorem claim4_witness :
    mlookup 3000 emptyTM.tunnels = none ∧
    isPortAllowed 3000 emptyTM.allowedPorts = true ∧
    registerTunnelWithRetry 1 { remotePort := 3000, localPort := 9000, name := "web" }
        (fun _ => .addrInUse) 0 emptyTM
      = (emptyTM.log [Act.tryBind 3000, Act.sleep 500, Act.tryBind 3000, Act.sleep 500,
          Act.tryBind 3000, Act.sleep 500, Act.tryBind 3000],
         .error (.bindError "EADDRINUSE")) :=
  ⟨by decide, by decide,
    (claim4_bind_retry_policy 1 { remotePort := 3000, localPort := 9000, name := "web" }
      emptyTM (by decide) (by decide)).1 (fun _ => .addrInUse) (fun _ => rfl)⟩

theorem registerTunnel_error_tunnels (c : Nat) (spec : TunnelSpec) (b : BindOutcome) (s : TM)
    (e : RegError) (h : (registerTunnel c spec b s).2 = .error e) :
    (registerTunnel c spec b s).1.tunnels = s.tunnels := by
  by_cases h1 : (mlookup spec.remotePort s.tunnels).isSome
  · simp [registerTunnel, h1]
  · by_cases h2 : isPortAllowed spec.remotePort s.allowedPorts
    · cases b with
      | ok => simp [registerTunnel, h1, h2] at h
      | addrInUse => simp [registerTunnel, h1, h2, TM.log]
      | otherErr code => simp [registerTunnel, h1, h2, TM.log]
    · simp [registerTunnel, h1, h2]

theorem registerTunnel_ok_facts (c : Nat) (spec : TunnelSpec) (b : BindOutcome) (s : TM)
    (r : RegOk) (h : (registerTunnel c spec b s).2 = .ok r) :
    r = { remotePort := spec.remotePort, localPort := spec.localPort, name := spec.name }
    ∧ mlookup spec.remotePort s.tunnels = none
    ∧ (registerTunnel c spec b s).1.tunnels
        = mset spec.remotePort (newTunnel c spec) s.tunnels := by
  by_cases h1 : (mlookup spec.remotePort s.tunnels).isSome
  · simp [registerTunnel, h1] at h
  · have hnone : mlookup spec.remotePort s.tunnels = none := by
      cases hx : mlookup spec.remotePort s.tunnels with
      | none => rfl
      | some _ => rw [hx] at h1; simp at h1
    by_cases h2 : isPortAllowed spec.remotePort s.allowedPorts
    · cases b with
      | ok =>
        refine ⟨?_, hnone, ?_⟩
        · simp [registerTunnel, h1, h2] at h
          exact h.symm
        · simp [registerTunnel, h1, h2, TM.log]
      | addrInUse => simp [registerTunnel, h1, h2] at h
      | otherErr code => simp [registerTunnel, h1, h2] at h
    · simp [registerTunnel, h1, h2] at h

theorem retry_error_tunnels (c : Nat) (spec : TunnelSpec) (binds : Nat → BindOutcome) :
    ∀ k attempt (s : TM), 3 - attempt ≤ k →
    ∀ e, (registerTunnelWithRetry c spec binds attempt s).2 = .error e →
      (registerTunnelWithRetry c spec binds attempt s).1.tunnels = s.tunnels := by
  intro k
  induction k with
  | zero =>
    intro attempt s hk e h
    rw [registerTunnelWithRetry] at h ⊢
    rcases hcall : registerTunnel c spec (binds attempt) s with ⟨s1, res⟩
    rw [hcall] at h
    cases res with
    | ok r => simp at h
    | error e1 =>
      have hbase : s1.tunnels = s.tunnels := by
        have h2 := registerTunnel_error_tunnels c spec (binds attempt) s e1 (by rw [hcall])
        rwa [hcall] at h2
      have hno : ¬ (e1.code = some "EADDRINUSE" ∧ attempt < 3) := by
        rintro ⟨-, hlt⟩; omega
      simp [hno]
      exact hbase
  | succ k ih =>
    intro attempt s hk e h
    rw [registerTunnelWithRetry] at h ⊢
    rcases hcall : registerTunnel c spec (binds attempt) s with ⟨s1, res⟩
    rw [hcall] at h
    cases res with
    | ok r => simp at h
    | error e1 =>
      have hbase : s1.tunnels = s.tunnels := by
        have h2 := registerTunnel_error_tunnels c spec (binds attempt) s e1 (by rw [hcall])
        rwa [hcall] at h2
      by_cases hcond : e1.code = some "EADDRINUSE" ∧ attempt < 3
      · simp only [dif_pos hcond] at h ⊢
        have hrec := ih (attempt + 1) (s1.log [Act.sleep 500]) (by omega) e h
        rw [hrec, log_tunnels, hbase]
      · simp [hcond]
        exact hbase

theorem retry_ok_facts (c : Nat) (spec : TunnelSpec) (binds : Nat → BindOutcome) :
    ∀ k attempt (s : TM), 3 - attempt ≤ k →
    ∀ r, (registerTunnelWithRetry c spec binds attempt s).2 = .ok r →
      r = { remotePort := spec.remotePort, localPort := spec.localPort, name := spec.name }
      ∧ mlookup spec.remotePort s.tunnels = none
      ∧ (registerTunnelWithRetry c spec binds attempt s).1.tunnels
          = mset spec.remotePort (newTunnel c spec) s.tunnels := by
  intro k
  induction k with
  | zero =>
    intro attempt s hk r h
    rw [registerTunnelWithRetry] at h ⊢
    rcases hcall : registerTunnel c spec (binds attempt) s with ⟨s1, res⟩
    rw [hcall] at h
    cases res with
    | ok r1 =>
      have hf := registerTunnel_ok_facts c spec (binds attempt) s r1 (by rw [hcall])
      simp at h ⊢
      subst h
      refine ⟨hf.1, hf.2.1, ?_⟩
      have h3 := hf.2.2
      rwa [hcall] at h3
    | error e1 =>
      have hno : ¬ (e1.code = some "EADDRINUSE" ∧ attempt < 3) := by
        rintro ⟨-, hlt⟩; omega
      simp [hno] at h
  | succ k ih =>
    intro attempt s hk r h
    rw [registerTunnelWithRetry] at h ⊢
    rcases hcall : registerTunnel c spec (binds attempt) s with ⟨s1, res⟩
    rw [hcall] at h
    cases res with
    | ok r1 =>
      have hf := registerTunnel_ok_facts c spec (binds attempt) s r1 (by rw [hcall])
      simp at h ⊢
      subst h
      refine ⟨hf.1, hf.2.1, ?_⟩
      have h3 := hf.2.2
      rwa [hcall] at h3
    | error e1 =>
      have hbase : s1.tunnels = s.tunnels := by
        have h2 := registerTunnel_error_tunnels c spec (binds attempt) s e1 (by rw [hcall])
        rwa [hcall] at h2
      by_cases hcond : e1.code = some "EADDRINUSE" ∧ attempt < 3
      · simp only [dif_pos hcond] at h ⊢
        have hrec := ih (attempt + 1) (s1.log [Act.sleep 500]) (by omega) r h
        refine ⟨hrec.1, ?_, ?_⟩
        · have h3 := hrec.2.1
          rwa [log_tunnels, hbase] at h3
        · have h3 := hrec.2.2
          rwa [log_tunnels, hbase] at h3
      · simp [hcond] at h

theorem retry_port_owned (c : Nat) (spec : TunnelSpec) (binds : Nat → BindOutcome) (s : TM)
    (h : (mlookup spec.remotePort s.tunnels).isSome) :
    registerTunnelWithRetry c spec binds 0 s = (s, .error (.portInUse spec.remotePort)) := by
  rw [registerTunnelWithRetry]
  have h0 : registerTunnel c spec (binds 0) s = (s, .error (.portInUse spec.remotePort)) := by
    simp [registerTunnel, h]
  rw [h0]
  simp [RegError.code]

theorem applyOp_register_success (s : TM) (c : Nat) (spec : TunnelSpec)
    (binds : Nat → BindOutcome) (h : opSuccess s (.register c spec binds) = true) :
    mlookup spec.remotePort s.tunnels = none ∧
    (applyOp s (.register c spec binds)).tunnels
      = mset spec.remotePort (newTunnel c spec) s.tunnels := by
  simp only [opSuccess] at h
  rcases hcall : (registerTunnelWithRetry c spec binds 0 s).2 with e | r
  · rw [hcall] at h
    simp at h
  · have hf := retry_ok_facts c spec binds 3 0 s (by omega) r hcall
    exact ⟨hf.2.1, by simpa [applyOp] using hf.2.2⟩

theorem applyOp_register_failure (s : TM) (c : Nat) (spec : TunnelSpec)
    (binds : Nat → BindOutcome) (h : opSuccess s (.register c spec binds) = false) :
    (applyOp s (.register c spec binds)).tunnels = s.tunnels := by
  simp only [opSuccess] at h
  rcases hcall : (registerTunnelWithRetry c spec binds 0 s).2 with e | r
  · simpa [applyOp] using retry_error_tunnels c spec binds 3 0 s (by omega) e hcall
  · rw [hcall] at h
    simp at h

theorem unregisterTunnel_absent (p : Nat) (s : TM)
    (h : mlookup p s.tunnels = none) : unregisterTunnel p s = s := by
  simp [unregisterTunnel, h]

theorem unregisterTunnel_present_tunnels (p : Nat) (s : TM) (t : Tunnel)
    (ht : mlookup p s.tunnels = some t) :
    (unregisterTunnel p s).tunnels
      = merase p (updateTunnel p (fun u => {u with connections := []}) s).tunnels := by
  simp [unregisterTunnel, ht, TM.log, updateTunnel]

theorem applyOp_unregister_success (s : TM) (p : Nat)
    (hnd : (mkeys s.tunnels).Nodup) (h : opSuccess s (.unregister p) = true) :
    (applyOp s (.unregister p)).tunnels.length + 1 = s.tunnels.length := by
  simp only [opSuccess] at h
  cases ht : mlookup p s.tunnels with
  | none => rw [ht] at h; simp at h
  | some t =>
    have hrw := unregisterTunnel_present_tunnels p s t ht
    simp only [applyOp, hrw]
    have hnd2 : (mkeys (updateTunnel p (fun u => {u with connections := []}) s).tunnels).Nodup := by
      rw [mkeys_updateTunnel]; exact hnd
    have hsome : (mlookup p (updateTunnel p (fun u => {u with connections := []}) s).tunnels).isSome := by
      rw [mlookup_updateTunnel_self, ht]; rfl
    have hlen := length_merase_of_present p _ hnd2 hsome
    rw [hlen, length_updateTunnel]

theorem applyOp_unregister_failure (s : TM) (p : Nat)
    (h : opSuccess s (.unregister p) = false) :
    applyOp s (.unregister p) = s := by
  simp only [opSuccess] at h
  cases ht : mlookup p s.tunnels with
  | none => simp [applyOp, unregisterTunnel_absent p s ht]
  | some t => rw [ht] at h; simp at h

theorem applyOp_nodup (s : TM) (op : Op) (hnd : (mkeys s.tunnels).Nodup) :
    (mkeys (applyOp s op).tunnels).Nodup := by
  cases op with
  | register c spec binds =>
    cases hs : opSuccess s (.register c spec binds) with
    | true =>
      obtain ⟨hfree, hset⟩ := applyOp_register_success s c spec binds hs
      rw [hset]
      exact mkeys_nodup_mset_absent _ _ _ hnd hfree
    | false =>
      rw [applyOp_register_failure s c spec binds hs]
      exact hnd
  | unregister p =>
    cases ht : mlookup p s.tunnels with
    | none => rw [applyOp, unregisterTunnel_absent p s ht]; exact hnd
    | some t =>
      have hrw := unregisterTunnel_present_tunnels p s t ht
      simp only [applyOp, hrw]
      apply mkeys_nodup_merase
      rw [mkeys_updateTunnel]
      exact hnd

/-- C5: registry uniqueness and counting. Starting from any state whose
registry keys are distinct: after any sequence of register and unregister
operations the keys are still distinct (at most one Tunnel per remotePort);
the registry size plus the number of successful unregisters equals the
starting size plus the number of successful registers (so from an empty
start, size = successful registers - successful unregisters); and a register
request for a remotePort already owned by any Tunnel — whatever its owning
client — returns the port-in-use error and leaves the whole state unchanged. -/
theorem claim5_registry_invariant (ops : List Op) : ∀ s : TM, (mkeys s.tunnels).Nodup →
    (mkeys (runOps s ops).tunnels).Nodup
    ∧ (runOps s ops).tunnels.length + succUnregCount s ops
        = s.tunnels.length + succRegCount s ops
    ∧ (∀ c spec binds, (mlookup spec.remotePort (runOps s ops).tunnels).isSome →
        applyOp (runOps s ops) (Op.register c spec binds) = runOps s ops
        ∧ (registerTunnelWithRetry c spec binds 0 (runOps s ops)).2
            = .error (.portInUse spec.remotePort)) := by
  induction ops with
  | nil =>
    intro s hnd
    refine ⟨hnd, by simp [runOps, succRegCount, succUnregCount], ?_⟩
    intro c spec binds h
    have := retry_port_owned c spec binds (runOps s []) (by simpa [runOps] using h)
    exact ⟨by simp [applyOp, this], by simp [this]⟩
  | cons op rest ih =>
    intro s hnd
    have hnd' : (mkeys (applyOp s op).tunnels).Nodup := applyOp_nodup s op hnd
    obtain ⟨ih1, ih2, ih3⟩ := ih (applyOp s op) hnd'
    have hrun : runOps s (op :: rest) = runOps (applyOp s op) rest := by simp [runOps]
    refine ⟨by rwa [hrun], ?_, by rwa [hrun]⟩
    rw [hrun]
    cases op with
    | register c spec binds =>
      have hu : succUnregCount s (.register c spec binds :: rest)
          = succUnregCount (applyOp s (.register c spec binds)) rest := by
        simp [succUnregCount]
      cases hs : opSuccess s (.register c spec binds) with
      | true =>
        obtain ⟨hfree, hset⟩ := applyOp_register_success s c spec binds hs
        have hlen : (applyOp s (.register c spec binds)).tunnels.length
            = s.tunnels.length + 1 := by
          rw [hset]; exact length_mset_absent _ _ _ hfree
        have hr : succRegCount s (.register c spec binds :: rest)
            = 1 + succRegCount (applyOp s (.register c spec binds)) rest := by
          simp [succRegCount, hs]
        rw [hr, hu]
        omega
      | false =>
        have hlen : (applyOp s (.register c spec binds)).tunnels.length
            = s.tunnels.length := by
          rw [applyOp_register_failure s c spec binds hs]
        have hr : succRegCount s (.register c spec binds :: rest)
            = succRegCount (applyOp s (.register c spec binds)) rest := by
          simp [succRegCount, hs]
        rw [hr, hu]
        omega
    | unregister p =>
      have hr : succRegCount s (.unregister p :: rest)
          = succRegCount (applyOp s (.unregister p)) rest := by
        simp [succRegCount]
      cases hs : opSuccess s (.unregister p) with
      | true =>
        have hlen := applyOp_unregister_success s p hnd hs
        have hu : succUnregCount s (.unregister p :: rest)
            = 1 + succUnregCount (applyOp s (.unregister p)) rest := by
          simp [succUnregCount, hs]
        rw [hr, hu]
        omega
      | false =>
        have heq := applyOp_unregister_failure s p hs
        have hu : succUnregCount s (.unregister p :: rest)
            = succUnregCount (applyOp s (.unregister p)) rest := by
          simp [succUnregCount, hs]
        rw [hr, hu]
        rw [heq] at ih2 ⊢
        omega

/-- Witness for C5: a register of port 3000 followed by its unregister on the
empty registry. -/
theorem claim5_witness :
    (mkeys emptyTM.tunnels).Nodup
    ∧ (mkeys (runOps emptyTM
        [Op.register 1 { remotePort := 3000, localPort := 9000, name := "web" } (fun _ => .ok),
         Op.unregister 3000]).tunnels).Nodup
    ∧ (runOps emptyTM
        [Op.register 1 { remotePort := 3000, localPort := 9000, name := "web" } (fun _ => .ok),
         Op.unregister 3000]).tunnels.length
      + succUnregCount emptyTM
          [Op.register 1 { remotePort := 3000, localPort := 9000, name := "web" } (fun _ => .ok),
           Op.unregister 3000]
      = emptyTM.tunnels.length
        + succRegCount emptyTM
            [Op.register 1 { remotePort := 3000, localPort := 9000, name := "web" } (fun _ => .ok),
             Op.unregister 3000] :=
  ⟨by decide,
    (claim5_registry_invariant _ emptyTM (by decide)).1,
    (claim5_registry_invariant _ emptyTM (by decide)).2.1⟩

theorem registerTunnel_ok_eq (c : Nat) (spec : TunnelSpec) (s : TM)
    (hfree : mlookup spec.remotePort s.tunnels = none)
    (hallow : isPortAllowed spec.remotePort s.allowedPorts = true) :
    registerTunnel c spec .ok s
      = ({s.log [Act.tryBind spec.remotePort] with
            tunnels := mset spec.remotePort (newTunnel c spec) s.tunnels},
         .ok { remotePort := spec.remotePort, localPort := spec.localPort, name := spec.name }) := by
  simp [registerTunnel, hfree, hallow, TM.log]

theorem retry_ok_eval (c : Nat) (spec : TunnelSpec) (binds : Nat → BindOutcome) (s : TM)
    (hb : binds 0 = .ok)
    (hfree : mlookup spec.remotePort s.tunnels = none)
    (hallow : isPortAllowed spec.remotePort s.allowedPorts = true) :
    registerTunnelWithRetry c spec binds 0 s
      = ({s.log [Act.tryBind spec.remotePort] with
            tunnels := mset spec.remotePort (newTunnel c spec) s.tunnels},
         .ok { remotePort := spec.remotePort, localPort := spec.localPort, name := spec.name }) := by
  rw [registerTunnelWithRetry, hb, registerTunnel_ok_eq c spec s hfree hallow]

theorem registerTunnelsGo_shape (clientId : Nat) (binds : Nat → Nat → BindOutcome) :
    ∀ (specs : List TunnelSpec) (i : Nat) (s : TM),
      ((registerTunnelsGo clientId binds i specs s).2.map (fun r => r.remotePort))
        = specs.map (fun spec => spec.remotePort)
      ∧ ∀ r ∈ (registerTunnelsGo clientId binds i specs s).2,
          (r.success = true ∧ r.error = none) ∨ (r.success = false ∧ (r.error).isSome) := by
  intro specs
  induction specs with
  | nil => intro i s; simp [registerTunnelsGo]
  | cons spec rest ih =>
    intro i s
    rcases hcall : registerTunnelWithRetry clientId spec (binds i) 0 s with ⟨s1, res⟩
    cases res with
    | ok r =>
      have hf := retry_ok_facts clientId spec (binds i) 3 0 s (by omega) r (by rw [hcall])
      constructor
      · simp [registerTunnelsGo, hcall, (ih (i + 1) s1).1, hf.1]
      · intro x hx
        simp only [registerTunnelsGo, hcall, List.mem_cons] at hx
        rcases hx with rfl | hx
        · exact Or.inl ⟨rfl, rfl⟩
        · exact (ih (i + 1) s1).2 x hx
    | error e =>
      constructor
      · simp [registerTunnelsGo, hcall, (ih (i + 1) s1).1]
      · intro x hx
        simp only [registerTunnelsGo, hcall, List.mem_cons] at hx
        rcases hx with rfl | hx
        · exact Or.inr ⟨rfl, rfl⟩
        · exact (ih (i + 1) s1).2 x hx

/-- C6: registerTunnels returns exactly one result per requested spec and in
request order — the list of result remotePorts equals the list of requested
remotePorts — and every result is either a success (carrying no error) or a
failure carrying the error string; a failing spec does not stop later specs,
and a mix of failures and successes is a normal outcome, witnessed by the
concrete run at the end (the first spec keeps hitting port-in-use and fails
after the retries, the second still registers fine). -/
theorem claim6_results_per_spec :
    (∀ (clientId : Nat) (specs : List TunnelSpec) (binds : Nat → Nat → BindOutcome) (s : TM),
      (registerTunnels clientId specs binds s).2.length = specs.length
      ∧ ((registerTunnels clientId specs binds s).2.map (fun r => r.remotePort))
          = specs.map (fun spec => spec.remotePort)
      ∧ ∀ r ∈ (registerTunnels clientId specs binds s).2,
          (r.success = true ∧ r.error = none) ∨ (r.success = false ∧ (r.error).isSome))
    ∧ ((registerTunnels 1
          [{ remotePort := 3000, localPort := 9000, name := "a" },
           { remotePort := 3001, localPort := 9001, name := "b" }]
          (fun i _ => if i = 0 then .addrInUse else .ok) emptyTM).2.map
            (fun r => r.success)) = [false, true] := by
  constructor
  · intro clientId specs binds s
    have h := registerTunnelsGo_shape clientId binds specs 0 s
    refine ⟨?_, h.1, h.2⟩
    have h2 := congrArg List.length h.1
    simpa using h2
  · have ha := retry_persistent_addrInUse 1
      { remotePort := 3000, localPort := 9000, name := "a" } emptyTM (by decide) (by decide)
      (fun _ => BindOutcome.addrInUse) (fun _ => rfl)
    have hbfree : mlookup 3001 (emptyTM.log [Act.tryBind 3000, Act.sleep 500, Act.tryBind 3000,
        Act.sleep 500, Act.tryBind 3000, Act.sleep 500, Act.tryBind 3000]).tunnels = none := rfl
    have hb := retry_ok_eval 1 { remotePort := 3001, localPort := 9001, name := "b" }
      (fun _ => BindOutcome.ok)
      (emptyTM.log [Act.tryBind 3000, Act.sleep 500, Act.tryBind 3000, Act.sleep 500,
        Act.tryBind 3000, Act.sleep 500, Act.tryBind 3000])
      rfl hbfree (by decide)
    simp [registerTunnels, registerTunnelsGo, ha, hb]

/-- Witness for C6 on a concrete two-spec request. -/
theorem claim6_witness :
    (registerTunnels 1
        [{ remotePort := 3000, localPort := 9000, name := "a" },
         { remotePort := 3001, localPort := 9001, name := "b" }]
        (fun i _ => if i = 0 then .addrInUse else .ok) emptyTM).2.length = 2
    ∧ ((registerTunnels 1
        [{ remotePort := 3000, localPort := 9000, name := "a" },
         { remotePort := 3001, localPort := 9001, name := "b" }]
        (fun i _ => if i = 0 then .addrInUse else .ok) emptyTM).2.map
          (fun r => r.remotePort)) = [3000, 3001] :=
  ⟨(claim6_results_per_spec.1 1 _ _ emptyTM).1,
   by rw [(claim6_results_per_spec.1 1 _ _ emptyTM).2.1]; rfl⟩

/-- A fresh, not yet authenticated control connection. -/
def preAuthConn : WsConn :=
  { authenticated := false, clientId := none, closed := false }

/-- A control server configured with one token and no clients yet. -/
def demoCS : CS :=
  { authTokens := ["secret"], clients := [] }

theorem handleMessage_conn (cs : CS) (w : WsConn) (m : Msg) :
    (handleMessage cs w m).2.1 = w := by
  cases m with
  | registerTunnelsMsg specs =>
    cases hx : mlookup (w.clientId.getD 0) cs.clients <;> simp [handleMessage, hx]
  | statusRequest =>
    cases hx : mlookup (w.clientId.getD 0) cs.clients <;> simp [handleMessage, hx]
  | auth tk => rfl
  | connectionReadyMsg connId dataPort => rfl
  | connectionClosedMsg connId => rfl
  | pong => rfl

/-- Counterexample for C7 as stated: before authentication, a frame that
fails validation is only logged and dropped — the connection stays open and
nothing changes — because handleConnection runs validateMessage and returns
before it ever reaches the authentication check. -/
theorem claim7_counterexample :
    (onMessage demoCS preAuthConn .invalid 5).2.1.closed = false
    ∧ onMessage demoCS preAuthConn .invalid 5
        = (demoCS, preAuthConn, [CtlEffect.warnInvalidMessage]) := by
  exact ⟨rfl, rfl⟩

/-- C7 (amended): before authentication a validated non-auth frame closes the
connection; a malformed or invalid frame, before or after authentication, is
only logged and dropped, leaving all state unchanged and the socket open; and
after authentication no frame whatsoever closes the connection. -/
theorem claim7_preauth_close_policy (cs : CS) (w : WsConn) (freshId : Nat) :
    (w.authenticated = false → ∀ m : Msg, (∀ tk, m ≠ .auth tk) →
       onMessage cs w (.valid m) freshId = (cs, {w with closed := true}, [CtlEffect.closeWs]))
    ∧ onMessage cs w .invalid freshId = (cs, w, [CtlEffect.warnInvalidMessage])
    ∧ onMessage cs w .malformed freshId = (cs, w, [CtlEffect.logCatchError])
    ∧ (w.authenticated = true → ∀ frame,
        ((onMessage cs w frame freshId).2.1).closed = w.closed) := by
  refine ⟨?_, rfl, rfl, ?_⟩
  · intro hw m hm
    cases m with
    | auth tk => exact absurd rfl (hm tk)
    | registerTunnelsMsg specs => simp [onMessage, hw]
    | connectionReadyMsg connId dataPort => simp [onMessage, hw]
    | connectionClosedMsg connId => simp [onMessage, hw]
    | pong => simp [onMessage, hw]
    | statusRequest => simp [onMessage, hw]
  · intro hw frame
    cases frame with
    | malformed => rfl
    | invalid => rfl
    | valid m =>
      simp only [onMessage, hw, Bool.not_true]
      rw [if_neg (by simp)]
      rw [handleMessage_conn]

/-- Witness for C7 (amended): a pre-auth pong frame closes the connection. -/
theorem claim7_witness :
    preAuthConn.authenticated = false ∧
    onMessage demoCS preAuthConn (.valid .pong) 5
      = (demoCS, {preAuthConn with closed := true}, [CtlEffect.closeWs]) :=
  ⟨rfl, (claim7_preauth_close_policy demoCS preAuthConn 5).1 rfl .pong (fun tk h => nomatch h)⟩

/-- Counterexample for C8 as stated: with the configured allowlist empty, an
auth attempt presenting the empty-string token — a perfectly well-typed token
value — is rejected with "No token provided" by the falsy-token guard that
runs before the allowlist is consulted, so not every token value is accepted. -/
theorem claim8_counterexample :
    authenticateClient [] (some "")
      = { success := false, reason := some "No token provided" } := rfl

/-- C8 (amended): on an auth message the presented token is compared to the
configured allowlist after a falsy-token guard; when the allowlist is empty,
every auth attempt presenting a non-empty token is accepted (the source logs
a warning), while a missing or empty token is rejected with "No token
provided" regardless of the allowlist; on success a fresh clientId is
assigned, the client is recorded, and auth_success carrying that clientId is
sent back. -/
theorem claim8_empty_allowlist_auth (cs : CS) (w : WsConn) (freshId : Nat) (tk : String)
    (hw : w.authenticated = false) (hempty : cs.authTokens = []) (htk : tk ≠ "") :
    onMessage cs w (.valid (.auth tk)) freshId
      = ({cs with clients := mset freshId [] cs.clients},
         {w with authenticated := true, clientId := some freshId},
         [CtlEffect.sendAuthSuccess freshId, CtlEffect.emitClientAuthenticated freshId])
    ∧ authenticateClient cs.authTokens (some "")
      = { success := false, reason := some "No token provided" } := by
  constructor
  · simp [onMessage, hw, authenticateClient, hempty, htk]
  · simp [authenticateClient, hempty]

/-- Witness for C8 (amended): empty allowlist, token "tok", fresh id 9. -/
theorem claim8_witness :
    ({ authTokens := [], clients := [] } : CS).authTokens = [] ∧
    preAuthConn.authenticated = false ∧
    onMessage { authTokens := [], clients := [] } preAuthConn (.valid (.auth "tok")) 9
      = (({ authTokens := [], clients := [(9, [])] } : CS),
         { authenticated := true, clientId := some 9, closed := false },
         [CtlEffect.sendAuthSuccess 9, CtlEffect.emitClientAuthenticated 9]) := by
  refine ⟨rfl, rfl, ?_⟩
  have h := (claim8_empty_allowlist_auth { authTokens := [], clients := [] } preAuthConn 9 "tok"
    rfl rfl (by decide)).1
  simpa [preAuthConn, mset, mlookup] using h

end NetGate
